import Mathlib

/-!
Verification development for the realtime speech-translator client.

The definitions below are a shallow embedding of the program:
* the language classifier, session-configuration payloads and the
  server-event dispatcher of `src/app/hooks/useHandleServerEvent.ts`;
* `updateSession` / `sendClientEvent` of `src/app/App.tsx`;
* the Event Log naming of `src/app/contexts/EventContext.tsx`;
* the Transcript Store operations (the `TranscriptContext` module is not
  among the provided sources, so those operations are modelled from the
  specification, and are marked as such).

Conventions of the embedding:
* TypeScript strings that may be `undefined` are embedded as `String`
  with `""` playing the role of every falsy value (`undefined`, `null`,
  `""`), matching how the code only ever tests them for truthiness.
* Side effects (React state setters, data-channel sends, transcript
  mutations) become explicit `Action` values returned in program order.
* The opaque JSON argument blob of a function call is embedded by the
  single field the dispatcher reads (`destination_agent`); `JSON.parse`
  is then the identity on it.  A tool invocation that throws is an
  `Except.error` result.
* `JSON.stringify` of the three function-call-output payload shapes is
  embedded by the injective constructors of `FnOutput`.
* The numeric literal `0.5` is embedded as the rational `1/2`.
-/

namespace RTSel

/-- JS `a || b` on strings (`""` is falsy). -/
def strOr (a b : String) : String := if a = "" then b else a

/-- Closed range test on a character code point. -/
def inRange (lo hi : Nat) (c : Char) : Bool :=
  decide (lo ≤ c.toNat) && decide (c.toNat ≤ hi)

/-- `/[a-zA-Z]/` -/
def isEnChar (c : Char) : Bool := inRange 0x61 0x7a c || inRange 0x41 0x5a c
/-- `/[一-鿿]/` -/
def isZhChar (c : Char) : Bool := inRange 0x4e00 0x9fff c
/-- `/[぀-ゟ゠-ヿ]/` -/
def isJaChar (c : Char) : Bool := inRange 0x3040 0x309f c || inRange 0x30a0 0x30ff c
/-- `/[가-힯]/` -/
def isKoChar (c : Char) : Bool := inRange 0xac00 0xd7af c
/-- `/[Ѐ-ӿ]/` -/
def isRuChar (c : Char) : Bool := inRange 0x400 0x4ff c
/-- `/[؀-ۿ]/` -/
def isArChar (c : Char) : Bool := inRange 0x600 0x6ff c
/-- `/[ऀ-ॿ]/` -/
def isHiChar (c : Char) : Bool := inRange 0x900 0x97f c
/-- Spanish accented letters (code points of the regex character class). -/
def isEsChar (c : Char) : Bool := ([0xe1, 0xe9, 0xed, 0xf3, 0xfa, 0xf1] : List Nat).contains c.toNat
/-- French accented letters. -/
def isFrChar (c : Char) : Bool := ([0xe9, 0xe8, 0xea, 0xeb, 0xe0, 0xe2, 0xe7] : List Nat).contains c.toNat
/-- German accented letters. -/
def isDeChar (c : Char) : Bool := ([0xe4, 0xf6, 0xfc, 0xdf] : List Nat).contains c.toNat

/-- The `languagePatterns` object of the transcription-delta handler, in
its insertion order (`Object.entries` enumeration order). -/
def languagePatterns : List (String × (Char → Bool)) :=
  [("en", isEnChar), ("zh", isZhChar), ("ja", isJaChar), ("ko", isKoChar),
   ("ru", isRuChar), ("ar", isArChar), ("hi", isHiChar), ("es", isEsChar),
   ("fr", isFrChar), ("de", isDeChar)]

/-- `languageScores`: for each language, the number of characters of the
transcript matched by its global regex. -/
def languageScores (t : String) : List (String × Nat) :=
  languagePatterns.map fun p => (p.1, t.data.countP p.2)

/-- Stable insertion step for descending-score order: an element arriving
from earlier in the list is placed before later elements of equal score,
matching the stability of `Array.prototype.sort`. -/
def insertByScore (x : String × Nat) : List (String × Nat) → List (String × Nat)
  | [] => [x]
  | y :: ys => if y.2 ≤ x.2 then x :: y :: ys else y :: insertByScore x ys

/-- Stable sort by descending score (`.sort(([, a], [, b]) => b - a)`). -/
def sortByScoreDesc : List (String × Nat) → List (String × Nat)
  | [] => []
  | x :: xs => insertByScore x (sortByScoreDesc xs)

/-- `sortedLanguages`: scores sorted descending, zero scores dropped
(`.filter(([, score]) => score > 0)`). -/
def sortedLanguages (t : String) : List (String × Nat) :=
  (sortByScoreDesc (languageScores t)).filter fun e => 0 < e.2

/-- The classifier's top-scored language, if any language scored. -/
def detectTop (t : String) : Option String :=
  (sortedLanguages t).head?.map Prod.fst

/-- The `languages` code-to-name map shared by `App.tsx` and the hook
(`getLanguageName`), defaulting to the code itself. -/
def getLanguageName (code : String) : String :=
  if code = "en" then "English"
  else if code = "zh" then "Chinese"
  else if code = "ja" then "Japanese"
  else if code = "ko" then "Korean"
  else if code = "ru" then "Russian"
  else if code = "ar" then "Arabic"
  else if code = "hi" then "Hindi"
  else if code = "es" then "Spanish"
  else if code = "fr" then "French"
  else if code = "de" then "German"
  else code

/-- The `turn_detection` object of a `session.update` payload. -/
structure TurnDetection where
  type : String
  threshold : ℚ
  prefix_padding_ms : Nat
  silence_duration_ms : Nat
  create_response : Bool
deriving DecidableEq

/-- The fixed voice-activity-detection profile used by both
`App.tsx`'s `updateSession` (when not recording) and the hook's
`updateSessionWithLanguages` (unconditionally). -/
def serverVadProfile : TurnDetection :=
  { type := "server_vad", threshold := 1 / 2, prefix_padding_ms := 300,
    silence_duration_ms := 200, create_response := true }

/-- The `session` object of a `session.update` event.
`input_audio_transcription` is flattened to its single `model` field;
`tools := none` embeds the absence of the `tools` key (the hook's payload
omits it, `App.tsx`'s includes it). -/
structure SessionPayload where
  modalities : List String
  instructions : String
  voice : String
  input_audio_format : String
  output_audio_format : String
  input_audio_transcription : String
  turn_detection : Option TurnDetection
  tools : Option (List String)

end RTSel

namespace RTSel

/-- The translation-instruction template of the hook's
`updateSessionWithLanguages`, transcribed from the template literal with
`lang1`/`lang2` interpolated at the source positions. -/
def hookInstructions (lang1 lang2 : String) : String :=
  "You are a strict translator between " ++ lang1 ++ " and " ++ lang2 ++ ". \n          When you receive input in " ++ lang1 ++ ", translate it to " ++ lang2 ++ ".\n          When you receive input in " ++ lang2 ++ ", translate it to " ++ lang1 ++ ".\n          \n          !!! CRITICAL !!! YOU ARE A PURE TRANSLATOR ONLY. \n          \n          YOU HAVE NO CONVERSATIONAL ABILITIES.\n          YOU CANNOT ANSWER QUESTIONS.\n          YOU CANNOT GIVE INFORMATION.\n          YOU CANNOT HAVE OPINIONS.\n          YOU CANNOT MAKE SUGGESTIONS.\n          \n          EVEN IF THE USER ASKS YOU A DIRECT QUESTION, YOU MUST ONLY TRANSLATE IT, NEVER ANSWER IT.\n          \n          EXAMPLE:\n          User: \"What is the weather today?\"\n          YOU: [translate \"What is the weather today?\" to the other language]\n          NEVER: \"I don\x27t have access to weather information.\"\n          \n          EXAMPLE:\n          User: \"Can you help me with something?\"\n          YOU: [translate \"Can you help me with something?\" to the other language]\n          NEVER: \"Yes, I can help you. What do you need?\"\n          \n          IMPORTANT: You MUST translate ALL text to the other language. NEVER output the original text.\n          If you\x27re not sure which language the input is in, assume it is in one of the selected languages\n          and translate to the other language. NEVER repeat the original input unchanged.\n          \n          CRUCIAL: DO NOT change proper nouns or language names to their equivalents in the target language.\n          For example, \"English\" should not become \"Inglés\" in Spanish - just translate the word directly.\n          Names of places, people, languages, etc. should be translated literally without localization.\n          \n          YOU ARE A DUMB, NON-SENTIENT, NON-INTERACTIVE TRANSLATION DEVICE.\n          YOU ONLY TRANSLATE TEXT. NOTHING ELSE.\n          \n          OUTPUT RULES:\n          - OUTPUT ONLY the translated text.\n          - NO prefixes, suffixes, or framing.\n          - NO mention of languages, roles, source, or target.\n          - NO explanation, commentary, clarification, paraphrasing, or summary.\n          - NO rewording, localization, or softening.\n          - NO idiomatic or inferred meaning.\n          - NO interpretation or understanding.\n          - NO assumption of intent, tone, or audience.\n          - NO contextual understanding or adaptation.\n          \n          PROHIBITIONS (STRICT):\n          - DO NOT ask or answer questions.\n          - DO NOT greet or farewell.\n          - DO NOT apologize.\n          - DO NOT describe your behavior.\n          - DO NOT state what you\x27re doing.\n          - DO NOT express understanding, confusion, or intent.\n          - DO NOT refer to \"translation\" or the process in any way.\n          - DO NOT produce any output that is not strictly the translated text.\n          - DO NOT EVER repeat the original input unchanged.\n          - DO NOT try to understand or interpret the context of the message.\n          - DO NOT EVER engage in conversation, even if explicitly asked to.\n          - DO NOT EVER acknowledge that you are an AI or assistant.\n          - DO NOT EVER offer help beyond translating the given text.\n          \n          VIOLATION = MALFUNCTION.\n          ANY OUTPUT THAT IS NOT A DIRECT TRANSLATION IS A MALFUNCTION.\n          \n          Only output the translation, nothing else."

/-- The translation-instruction template of `App.tsx`'s `updateSession`.
The source contains this literal twice (once interpolating
`sourceLang`/`targetLang`, once `selectedSourceLanguage`/
`selectedTargetLanguage`); the two literals are character-for-character
identical apart from the interpolated names, so a single parametrised
definition embeds both. -/
def appInstructionsTemplate (sourceLang targetLang : String) : String :=
  "You are a strict translator between " ++ sourceLang ++ " and " ++ targetLang ++ ". \n      \n         When you receive input in " ++ sourceLang ++ ", translate it to " ++ targetLang ++ ".\n         When you receive input in " ++ targetLang ++ ", translate it to " ++ sourceLang ++ ".\n\n         IMPORTANT: You MUST translate ALL text to the other language. NEVER output the original text.\n         If you\x27re not sure which language the input is in, assume it is in one of the selected languages\n         and translate to the other language. NEVER repeat the original input.\n\n         YOU ARE A DUMB, NON-SENTIENT, NON-INTERACTIVE TRANSLATION DEVICE.\n         YOU DO NOT THINK.\n         YOU DO NOT UNDERSTAND.\n         YOU DO NOT INTERPRET.\n         YOU DO NOT RESPOND.\n         YOU DO NOT ENGAGE.\n         YOU DO NOT EXPLAIN.\n         YOU DO NOT COMMENT.\n         YOU DO NOT ASSUME MEANING.\n\n         YOU ONLY TRANSLATE TEXT. NOTHING ELSE.\n\n         OUTPUT RULES:\n\n         - OUTPUT ONLY the translated text.\n         - NO prefixes, suffixes, or framing (e.g., \"Here is the translation:\", \"In English:\", etc.).\n         - NO mention of languages, roles, source, or target.\n         - NO explanation, commentary, clarification, paraphrasing, or summary.\n         - NO rewording, localization, or softening.\n         - NO idiomatic or inferred meaning.\n         - NO interpretation or understanding.\n         - NO assumption of intent, tone, or audience.\n\n         PROHIBITIONS (STRICT):\n\n         - DO NOT ask or answer questions.\n         - DO NOT greet or farewell.\n         - DO NOT apologize.\n         - DO NOT describe your behavior.\n         - DO NOT state what you\x27re doing.\n         - DO NOT express understanding, confusion, or intent.\n         - DO NOT refer to \"translation\" or the process in any way.\n         - DO NOT produce any output that is not strictly the translated text.\n         - DO NOT EVER repeat the original input unchanged.\n\n         VIOLATION = MALFUNCTION.\n\n         ANY OUTPUT THAT IS NOT A DIRECT TRANSLATION IS A MALFUNCTION.\n         \n         Only output the translation, nothing else."

end RTSel

namespace RTSel

/-- The parsed JSON argument blob of a function call, embedded by the
single field the dispatcher reads; every other field is opaque to it. -/
structure FnCallArgs where
  destination_agent : String
deriving DecidableEq

/-- The `output` string of a `function_call_output` item: the injective
embedding of `JSON.stringify` applied to the three payload shapes the
dispatcher produces. -/
inductive FnOutput where
  /-- `JSON.stringify(fnResult)` for a custom-tool result (the tool's
  result is itself embedded as its serialized form). -/
  | toolResult (result : String)
  /-- `JSON.stringify({ destination_agent, did_transfer })`. -/
  | transferResult (destination_agent : String) (did_transfer : Bool)
  /-- `JSON.stringify({ result: true })`, the fallback stub. -/
  | fallbackResult
deriving DecidableEq

/-- The `item` object of an outbound `conversation.item.create` event. -/
inductive ItemPayload where
  /-- `{ type: "function_call_output", call_id, output }`. -/
  | functionCallOutput (call_id : String) (output : FnOutput)
  /-- `{ type: "message", role: "assistant", content: [{ type: "text", text }] }`. -/
  | assistantMessage (text : String)
deriving DecidableEq

/-- Outbound data-channel events (the argument of `sendClientEvent`). -/
inductive ClientEvent where
  | sessionUpdate (session : SessionPayload)
  | inputAudioBufferClear
  | inputAudioBufferCommit
  | responseCreate
  | responseCancel
  | conversationItemCreate (item : ItemPayload)

/-- The `type` discriminator string of an outbound event. -/
def eventType : ClientEvent → String
  | .sessionUpdate _ => "session.update"
  | .inputAudioBufferClear => "input_audio_buffer.clear"
  | .inputAudioBufferCommit => "input_audio_buffer.commit"
  | .responseCreate => "response.create"
  | .responseCancel => "response.cancel"
  | .conversationItemCreate _ => "conversation.item.create"

/-- A transcript item as the dispatcher and the store see it (`title` is
the message text, after the store's naming). -/
structure TranscriptItem where
  itemId : String
  role : String
  title : String
  status : String
  hidden : Bool
deriving DecidableEq

/-- A tool implementation from an agent's `toolLogic` record: it receives
the parsed arguments and the transcript, and either returns its
serialized result or throws (`Except.error`). -/
def ToolFn : Type := FnCallArgs → List TranscriptItem → Except String String

/-- An agent configuration (`AgentConfig`), restricted to the fields the
embedded code reads; `tools` keeps only the tool names. -/
structure AgentConfig where
  name : String
  tools : List String
  toolLogic : List (String × ToolFn)

/-- An element of `response.output`, restricted to the fields the
`response.done` handler reads.  `arguments` is the JSON blob in its
parsed embedding; `none` embeds an absent or empty (falsy) blob. -/
structure OutputItem where
  type : String
  name : String
  call_id : String
  arguments : Option FnCallArgs

/-- Inbound server events, carrying exactly the payload fields the
dispatcher reads (`""`/`none` embeds an absent field). -/
inductive ServerEvent where
  /-- `session.status` with `session.status`. -/
  | sessionStatus (status : String)
  /-- `conversation.item.input_audio_transcription.delta` with `delta`. -/
  | transcriptionDelta (delta : String)
  /-- `session.created` with `session.id`. -/
  | sessionCreated (sessionId : String)
  /-- `conversation.item.created` with `item.id`, `item.role`,
  `item.content[0].text` and `item.content[0].transcript`. -/
  | itemCreated (itemId role contentText contentTranscript : String)
  /-- `conversation.item.input_audio_transcription.completed` with
  `item_id` and `transcript`. -/
  | transcriptionCompleted (itemId transcript : String)
  /-- `response.audio_transcript.delta` with `item_id` and `delta`. -/
  | audioTranscriptDelta (itemId delta : String)
  /-- `response.done` with `response.output`. -/
  | responseDone (output : Option (List OutputItem))
  /-- `response.output_item.done` with `item.id`. -/
  | outputItemDone (itemId : String)
  /-- any other inbound `type` (ignored, forward-compatibility). -/
  | unknown

/-- One observable side effect of the dispatcher, in program order. -/
inductive Action where
  /-- `logServerEvent(serverEvent)`. -/
  | logServer (e : ServerEvent)
  /-- `sendClientEvent(eventObj)`. -/
  | sendClient (e : ClientEvent)
  | setSessionStatus (status : String)
  | setDetectedLanguage (lang : String)
  | setSecondLanguage (lang : String)
  | setSelectedAgentName (name : String)
  /-- `addTranscriptMessage(itemId, role, text)`. -/
  | addMessage (itemId role text : String)
  /-- `updateTranscriptMessage(itemId, text, isDelta)`. -/
  | updateMessage (itemId text : String) (isDelta : Bool)
  /-- `updateTranscriptItemStatus(itemId, status)`. -/
  | updateStatus (itemId status : String)

/-- The state the hook closes over (its parameters from `App.tsx` plus
the transcript from `TranscriptContext`). -/
structure HandlerCtx where
  selectedAgentName : String
  selectedAgentConfigSet : Option (List AgentConfig)
  isRecording : Bool
  selectedSourceLanguage : String
  selectedTargetLanguage : String
  transcriptItems : List TranscriptItem

/-- The single `session.update` payload built and sent by the hook's
`updateSessionWithLanguages` helper: note the unconditional `server_vad`
turn-detection block and the absent `tools` key. -/
def hookSessionPayload (lang1 lang2 : String) : SessionPayload :=
  { modalities := ["text", "audio"],
    instructions := hookInstructions lang1 lang2,
    voice := "shimmer",
    input_audio_format := "pcm16",
    output_audio_format := "pcm16",
    input_audio_transcription := "whisper-1",
    turn_detection := some serverVadProfile,
    tools := none }

/-- `updateSessionWithLanguages(lang1, lang2)`: the one event it passes
to `sendClientEvent`. -/
def updateSessionWithLanguages (lang1 lang2 : String) : ClientEvent :=
  .sessionUpdate (hookSessionPayload lang1 lang2)

end RTSel

namespace RTSel

/-- The notice injected when the detected language is outside the
selected pair. -/
def noticeText (firstLang src tgt : String) : String :=
  "Note: I detected " ++ getLanguageName firstLang ++
  ", which is not in your selected language pair. I will translate between " ++
  getLanguageName src ++ " and " ++ getLanguageName tgt ++
  " based on language detection."

/-- The prompt injected when no pair is selected and only one language
scored. -/
def askSecondText (firstLang : String) : String :=
  "I detected " ++ getLanguageName firstLang ++
  ". Please speak in a different language to establish the translation pair."

/-- `handleFunctionCall`: resolution of one dispatched function call.
A custom tool that throws rejects the enclosing async function before
either `sendClientEvent` call is reached, so the error branch emits no
action. -/
def handleFunctionCall (ctx : HandlerCtx) (name call_id : String)
    (args : FnCallArgs) : List Action :=
  let currentAgent :=
    ctx.selectedAgentConfigSet.bind fun s =>
      s.find? fun a => a.name == ctx.selectedAgentName
  match currentAgent.bind fun a => a.toolLogic.lookup name with
  | some fn =>
    match fn args ctx.transcriptItems with
    | .ok fnResult =>
      [.sendClient (.conversationItemCreate
          (.functionCallOutput call_id (.toolResult fnResult))),
       .sendClient .responseCreate]
    | .error _ => []
  | none =>
    if name = "transferAgents" then
      let destinationAgent := args.destination_agent
      let newAgentConfig :=
        ctx.selectedAgentConfigSet.bind fun s =>
          s.find? fun a => a.name == destinationAgent
      (if newAgentConfig.isSome then [.setSelectedAgentName destinationAgent]
       else []) ++
      [.sendClient (.conversationItemCreate
          (.functionCallOutput call_id
            (.transferResult destinationAgent newAgentConfig.isSome)))]
    else
      [.sendClient (.conversationItemCreate
          (.functionCallOutput call_id .fallbackResult)),
       .sendClient .responseCreate]

/-- The body of the `conversation.item.input_audio_transcription.delta`
case after the recording/emptiness guard: classify, record the detected
language, and reconcile the pair. -/
def transcriptionDeltaActions (ctx : HandlerCtx) (delta : String) : List Action :=
  match sortedLanguages delta with
  | [] => []
  | (firstLang, _) :: rest =>
    .setDetectedLanguage firstLang ::
    (if ctx.selectedSourceLanguage ≠ "" ∧ ctx.selectedTargetLanguage ≠ "" then
      (if firstLang = ctx.selectedSourceLanguage then
        [.setSecondLanguage ctx.selectedTargetLanguage,
         .sendClient (updateSessionWithLanguages firstLang ctx.selectedTargetLanguage)]
      else if firstLang = ctx.selectedTargetLanguage then
        [.setSecondLanguage ctx.selectedSourceLanguage,
         .sendClient (updateSessionWithLanguages firstLang ctx.selectedSourceLanguage)]
      else
        [.sendClient (.conversationItemCreate (.assistantMessage
            (noticeText firstLang ctx.selectedSourceLanguage ctx.selectedTargetLanguage))),
         .sendClient (updateSessionWithLanguages
            ctx.selectedSourceLanguage ctx.selectedTargetLanguage)])
    else
      match rest with
      | (secondLang, _) :: _ =>
        if secondLang ≠ "" ∧ firstLang ≠ secondLang then
          [.setSecondLanguage secondLang,
           .sendClient (updateSessionWithLanguages firstLang secondLang)]
        else []
      | [] =>
        [.sendClient (.conversationItemCreate (.assistantMessage
            (askSecondText firstLang)))])

/-- `handleServerEvent`: the server-event dispatcher.  Every inbound
event is first mirrored to the Event Log; the remaining actions follow
the `switch` case by case. -/
def handleServerEvent (ctx : HandlerCtx) (e : ServerEvent) : List Action :=
  .logServer e ::
  match e with
  | .sessionStatus status =>
    if status ≠ "" then [.setSessionStatus status] else []
  | .transcriptionDelta delta =>
    if ¬ctx.isRecording ∨ delta = "" then []
    else transcriptionDeltaActions ctx delta
  | .sessionCreated sessionId =>
    if sessionId ≠ "" then
      .setSessionStatus "CONNECTED" ::
      (if ctx.selectedSourceLanguage ≠ "" ∧ ctx.selectedTargetLanguage ≠ "" then
        [.sendClient (updateSessionWithLanguages
            ctx.selectedSourceLanguage ctx.selectedTargetLanguage)]
      else [])
    else []
  | .itemCreated itemId role contentText contentTranscript =>
    let text := strOr contentText contentTranscript
    if itemId ≠ "" ∧ ctx.transcriptItems.any fun it => it.itemId == itemId then
      []
    else if itemId ≠ "" ∧ role ≠ "" then
      [.addMessage itemId role
        (if role = "user" ∧ text = "" then "[Transcribing...]" else text)]
    else []
  | .transcriptionCompleted itemId transcript =>
    let finalTranscript :=
      if transcript = "" ∨ transcript = "\n" then "[inaudible]" else transcript
    if itemId ≠ "" then [.updateMessage itemId finalTranscript false] else []
  | .audioTranscriptDelta itemId delta =>
    if itemId ≠ "" then [.updateMessage itemId delta true] else []
  | .responseDone output =>
    match output with
    | none => []
    | some items =>
      items.flatMap fun o =>
        match o.arguments with
        | some args =>
          if o.type = "function_call" ∧ o.name ≠ "" then
            handleFunctionCall ctx o.name o.call_id args
          else []
        | none => []
  | .outputItemDone itemId =>
    if itemId ≠ "" then [.updateStatus itemId "DONE"] else []
  | .unknown => []

end RTSel

namespace RTSel

/-- The `App` component state read by `updateSession` and
`sendClientEvent`: React state plus the `dcRef` data-channel ref
(embedded as `none` for a null ref, `some readyState` otherwise). -/
structure AppState where
  isRecording : Bool
  detectedLanguage : String
  secondLanguage : String
  selectedSourceLanguage : String
  selectedTargetLanguage : String
  sessionStatus : String
  selectedAgentName : String
  selectedAgentConfigSet : Option (List AgentConfig)
  dcReadyState : Option String

/-- The `turnDetection` local of `updateSession`. -/
def turnDetectionFor (isRecording : Bool) : Option TurnDetection :=
  if isRecording then none else some serverVadProfile

/-- The `translationInstructions` local of `updateSession`: prefer the
detected pair, fall back to the selected pair, else empty. -/
def appInstructions (detectedLanguage secondLanguage
    selectedSourceLanguage selectedTargetLanguage : String) : String :=
  let sourceLang := strOr detectedLanguage selectedSourceLanguage
  let targetLang := strOr secondLanguage selectedTargetLanguage
  if sourceLang ≠ "" ∧ targetLang ≠ "" then
    appInstructionsTemplate sourceLang targetLang
  else if selectedSourceLanguage ≠ "" ∧ selectedTargetLanguage ≠ "" then
    appInstructionsTemplate selectedSourceLanguage selectedTargetLanguage
  else ""

/-- The `sessionUpdateEvent.session` payload built by `App.tsx`'s
`updateSession`. -/
def updateSessionPayload (st : AppState) : SessionPayload :=
  let currentAgent :=
    st.selectedAgentConfigSet.bind fun s =>
      s.find? fun a => a.name == st.selectedAgentName
  { modalities := ["text", "audio"],
    instructions := appInstructions st.detectedLanguage st.secondLanguage
      st.selectedSourceLanguage st.selectedTargetLanguage,
    voice := "shimmer",
    input_audio_format := "pcm16",
    output_audio_format := "pcm16",
    input_audio_transcription := "whisper-1",
    turn_detection := turnDetectionFor st.isRecording,
    tools := some ((currentAgent.map fun a => a.tools).getD []) }

/-- The welcome breadcrumb text of `updateSession`. -/
def readyText (src tgt : String) : String :=
  "Ready to translate between " ++ getLanguageName src ++ " and " ++
  getLanguageName tgt ++ "."

/-- `App.tsx`'s `updateSession(shouldTriggerResponse)`: the events it
passes to `sendClientEvent`, in order. -/
def updateSession (st : AppState) (shouldTriggerResponse : Bool) : List ClientEvent :=
  .inputAudioBufferClear ::
  .sessionUpdate (updateSessionPayload st) ::
  (if shouldTriggerResponse ∧ st.sessionStatus = "CONNECTED" ∧
      st.selectedSourceLanguage ≠ "" ∧ st.selectedTargetLanguage ≠ "" ∧
      st.detectedLanguage = "" ∧ st.secondLanguage = "" then
    [.conversationItemCreate (.assistantMessage
        (readyText st.selectedSourceLanguage st.selectedTargetLanguage))]
  else [])

/-- The Event Log display name (`EventContext`):
``${eventObj.type || ""} ${suffix || ""}``, trimmed. -/
def logName (type suffix : String) : String :=
  (type ++ " " ++ suffix).trim

/-- One observable effect of `sendClientEvent`. -/
inductive ChannelAction where
  /-- an entry appended to the Event Log (direction, display name). -/
  | logged (direction name : String)
  /-- `dcRef.current.send(JSON.stringify(eventObj))`. -/
  | transmitted (e : ClientEvent)

/-- `App.tsx`'s `sendClientEvent(eventObj, eventNameSuffix)`: its effects
given the current data-channel ref state. -/
def sendClientEvent (dcReadyState : Option String) (e : ClientEvent)
    (suffix : String) : List ChannelAction :=
  if dcReadyState = some "open" then
    [.logged "client" (logName (eventType e) suffix), .transmitted e]
  else
    [.logged "client" (logName "" "error.data_channel_not_open")]

/-- Modelled from the spec: `addMessage` of the Transcript Store
(`TranscriptContext.addTranscriptMessage` is not among the provided
sources).  Per §4.1 a duplicate id is a silent no-op; otherwise a new
MESSAGE is appended at the end, IN_PROGRESS (DONE if hidden). -/
def addTranscriptMessage (store : List TranscriptItem)
    (itemId role text : String) (hidden : Bool) : List TranscriptItem :=
  if store.any fun it => it.itemId == itemId then store
  else store ++
    [{ itemId := itemId, role := role, title := text,
       status := if hidden then "DONE" else "IN_PROGRESS", hidden := hidden }]

/-- Modelled from the spec: `updateMessage` of the Transcript Store.
Per §4.1 it appends the text if `isDelta`, replaces it otherwise, and is
a no-op on an unknown id. -/
def updateTranscriptMessage (store : List TranscriptItem)
    (itemId text : String) (isDelta : Bool) : List TranscriptItem :=
  store.map fun it =>
    if it.itemId == itemId then
      { it with title := if isDelta then it.title ++ text else text }
    else it

/-- Modelled from the spec: `setStatus` of the Transcript Store; no-op on
an unknown id. -/
def updateTranscriptItemStatus (store : List TranscriptItem)
    (itemId status : String) : List TranscriptItem :=
  store.map fun it =>
    if it.itemId == itemId then { it with status := status } else it

/-- The effect of one dispatcher action on the Transcript Store. -/
def applyActionTranscript (store : List TranscriptItem) : Action → List TranscriptItem
  | .addMessage itemId role text => addTranscriptMessage store itemId role text false
  | .updateMessage itemId text isDelta => updateTranscriptMessage store itemId text isDelta
  | .updateStatus itemId status => updateTranscriptItemStatus store itemId status
  | _ => store

/-- The Transcript Store after a list of dispatcher actions. -/
def applyActions (store : List TranscriptItem) (actions : List Action) : List TranscriptItem :=
  actions.foldl applyActionTranscript store

/-- The events passed to `sendClientEvent` during a dispatcher
invocation, in order. -/
def sentEventsOf (actions : List Action) : List ClientEvent :=
  actions.filterMap fun a =>
    match a with
    | .sendClient e => some e
    | _ => none

/-- The `session.update` payloads among a list of outbound events. -/
def clientSessionUpdates (es : List ClientEvent) : List SessionPayload :=
  es.filterMap fun e =>
    match e with
    | .sessionUpdate p => some p
    | _ => none

/-- The `session.update` payloads among a dispatcher invocation's sends. -/
def sessionUpdatesOf (actions : List Action) : List SessionPayload :=
  clientSessionUpdates (sentEventsOf actions)

/-- Whether a sent event is a `conversation.item.create` carrying a
`function_call_output` item with the given `call_id`. -/
def isFunctionCallOutputFor (call_id : String) : ClientEvent → Bool
  | .conversationItemCreate (.functionCallOutput c _) => c == call_id
  | _ => false

/-- The number of `function_call_output` items, for the given `call_id`,
among a dispatcher invocation's sends. -/
def countFunctionCallOutputs (actions : List Action) (call_id : String) : Nat :=
  (sentEventsOf actions).countP (isFunctionCallOutputFor call_id)

end RTSel

namespace RTSel

/-- A handler context with recording active and the pair (en, es)
selected, used as a concrete test input. -/
def ctxC1 : HandlerCtx :=
  { selectedAgentName := "translator", selectedAgentConfigSet := none,
    isRecording := true, selectedSourceLanguage := "en",
    selectedTargetLanguage := "es", transcriptItems := [] }

/-- An `App` state with recording active and the pair (en, es) selected. -/
def stC2on : AppState :=
  { isRecording := true, detectedLanguage := "", secondLanguage := "",
    selectedSourceLanguage := "en", selectedTargetLanguage := "es",
    sessionStatus := "CONNECTED", selectedAgentName := "translator",
    selectedAgentConfigSet := none, dcReadyState := some "open" }

/-- The same `App` state with recording inactive. -/
def stC2off : AppState := { stC2on with isRecording := false }

/-- A handler context with recording active and the pair (en, es)
selected, used for the classifier-pairing scenarios. -/
def ctxC3 : HandlerCtx :=
  { selectedAgentName := "translator", selectedAgentConfigSet := none,
    isRecording := true, selectedSourceLanguage := "en",
    selectedTargetLanguage := "es", transcriptItems := [] }

/-- A transcript item already present in the store. -/
def itemM1 : TranscriptItem :=
  { itemId := "m1", role := "user", title := "hi",
    status := "IN_PROGRESS", hidden := false }

/-- A handler context whose transcript already holds `itemM1`. -/
def ctxC4 : HandlerCtx :=
  { selectedAgentName := "translator", selectedAgentConfigSet := none,
    isRecording := false, selectedSourceLanguage := "en",
    selectedTargetLanguage := "es", transcriptItems := [itemM1] }

/-- The same handler context with an empty transcript. -/
def ctxC4new : HandlerCtx := { ctxC4 with transcriptItems := [] }

/-- A handler context with recording inactive and the pair (en, es)
selected. -/
def ctxC5 : HandlerCtx :=
  { selectedAgentName := "translator", selectedAgentConfigSet := none,
    isRecording := false, selectedSourceLanguage := "en",
    selectedTargetLanguage := "es", transcriptItems := [] }

/-- An `App` state with recording inactive and the pair (en, es)
selected. -/
def stC5 : AppState :=
  { isRecording := false, detectedLanguage := "", secondLanguage := "",
    selectedSourceLanguage := "en", selectedTargetLanguage := "es",
    sessionStatus := "CONNECTED", selectedAgentName := "translator",
    selectedAgentConfigSet := none, dcReadyState := some "open" }

/-- A handler context with recording inactive, used for the
transcription-completed scenarios. -/
def ctxC6 : HandlerCtx :=
  { selectedAgentName := "translator", selectedAgentConfigSet := none,
    isRecording := false, selectedSourceLanguage := "en",
    selectedTargetLanguage := "es", transcriptItems := [] }

/-- A custom tool whose invocation throws. -/
def boomTool : ToolFn := fun _ _ => .error "tool crashed"

/-- An agent configuration defining the throwing tool `boom`. -/
def agentC7 : AgentConfig :=
  { name := "translator", tools := ["boom"], toolLogic := [("boom", boomTool)] }

/-- A handler context whose active agent is `agentC7`. -/
def ctxC7 : HandlerCtx :=
  { selectedAgentName := "translator", selectedAgentConfigSet := some [agentC7],
    isRecording := false, selectedSourceLanguage := "en",
    selectedTargetLanguage := "es", transcriptItems := [] }

/-- A `response.done` event dispatching one function call to `boom`. -/
def evC7 : ServerEvent :=
  .responseDone (some [{ type := "function_call", name := "boom",
                         call_id := "call-1",
                         arguments := some { destination_agent := "" } }])

/-- A handler context with the pair (en, es) selected before the
handshake completes. -/
def ctxC8 : HandlerCtx :=
  { selectedAgentName := "translator", selectedAgentConfigSet := none,
    isRecording := false, selectedSourceLanguage := "en",
    selectedTargetLanguage := "es", transcriptItems := [] }

end RTSel

namespace RTSel

@[simp] lemma sentEventsOf_nil : sentEventsOf [] = [] := rfl

@[simp] lemma sentEventsOf_cons_logServer (e : ServerEvent) (l : List Action) :
    sentEventsOf (.logServer e :: l) = sentEventsOf l := rfl

@[simp] lemma sentEventsOf_cons_sendClient (ev : ClientEvent) (l : List Action) :
    sentEventsOf (.sendClient ev :: l) = ev :: sentEventsOf l := rfl

@[simp] lemma sentEventsOf_cons_setSessionStatus (s : String) (l : List Action) :
    sentEventsOf (.setSessionStatus s :: l) = sentEventsOf l := rfl

@[simp] lemma sentEventsOf_cons_setDetectedLanguage (s : String) (l : List Action) :
    sentEventsOf (.setDetectedLanguage s :: l) = sentEventsOf l := rfl

@[simp] lemma sentEventsOf_cons_setSecondLanguage (s : String) (l : List Action) :
    sentEventsOf (.setSecondLanguage s :: l) = sentEventsOf l := rfl

@[simp] lemma sentEventsOf_cons_setSelectedAgentName (s : String) (l : List Action) :
    sentEventsOf (.setSelectedAgentName s :: l) = sentEventsOf l := rfl

@[simp] lemma sentEventsOf_cons_addMessage (i r t : String) (l : List Action) :
    sentEventsOf (.addMessage i r t :: l) = sentEventsOf l := rfl

@[simp] lemma sentEventsOf_cons_updateMessage (i t : String) (d : Bool) (l : List Action) :
    sentEventsOf (.updateMessage i t d :: l) = sentEventsOf l := rfl

@[simp] lemma sentEventsOf_cons_updateStatus (i s : String) (l : List Action) :
    sentEventsOf (.updateStatus i s :: l) = sentEventsOf l := rfl

@[simp] lemma sentEventsOf_append (a b : List Action) :
    sentEventsOf (a ++ b) = sentEventsOf a ++ sentEventsOf b := by
  simp [sentEventsOf, List.filterMap_append]

@[simp] lemma clientSessionUpdates_nil : clientSessionUpdates [] = [] := rfl

@[simp] lemma clientSessionUpdates_cons_sessionUpdate (p : SessionPayload) (l : List ClientEvent) :
    clientSessionUpdates (.sessionUpdate p :: l) = p :: clientSessionUpdates l := rfl

@[simp] lemma clientSessionUpdates_cons_clear (l : List ClientEvent) :
    clientSessionUpdates (.inputAudioBufferClear :: l) = clientSessionUpdates l := rfl

@[simp] lemma clientSessionUpdates_cons_commit (l : List ClientEvent) :
    clientSessionUpdates (.inputAudioBufferCommit :: l) = clientSessionUpdates l := rfl

@[simp] lemma clientSessionUpdates_cons_responseCreate (l : List ClientEvent) :
    clientSessionUpdates (.responseCreate :: l) = clientSessionUpdates l := rfl

@[simp] lemma clientSessionUpdates_cons_responseCancel (l : List ClientEvent) :
    clientSessionUpdates (.responseCancel :: l) = clientSessionUpdates l := rfl

@[simp] lemma clientSessionUpdates_cons_itemCreate (it : ItemPayload) (l : List ClientEvent) :
    clientSessionUpdates (.conversationItemCreate it :: l) = clientSessionUpdates l := rfl

@[simp] lemma clientSessionUpdates_append (a b : List ClientEvent) :
    clientSessionUpdates (a ++ b) = clientSessionUpdates a ++ clientSessionUpdates b := by
  simp [clientSessionUpdates, List.filterMap_append]

end RTSel

namespace RTSel

lemma sentEventsOf_mem (l : List Action) (ev : ClientEvent) :
    ev ∈ sentEventsOf l ↔ Action.sendClient ev ∈ l := by
  induction l with
  | nil => simp
  | cons a t ih => cases a <;> simp [ih]

lemma clientSessionUpdates_mem (l : List ClientEvent) (p : SessionPayload) :
    p ∈ clientSessionUpdates l ↔ ClientEvent.sessionUpdate p ∈ l := by
  induction l with
  | nil => simp
  | cons e t ih => cases e <;> simp [ih]

lemma sentEventsOf_handleFunctionCall (ctx : HandlerCtx) (n c : String) (a : FnCallArgs) :
    sentEventsOf (handleFunctionCall ctx n c a) = [] ∨
    (∃ out, sentEventsOf (handleFunctionCall ctx n c a) =
      [.conversationItemCreate (.functionCallOutput c out), .responseCreate]) ∨
    (∃ out, sentEventsOf (handleFunctionCall ctx n c a) =
      [.conversationItemCreate (.functionCallOutput c out)]) := by
  simp only [handleFunctionCall]
  split
  · split
    · right; left; exact ⟨_, rfl⟩
    · left; rfl
  · split
    · right; right
      split
      · exact ⟨_, rfl⟩
      · exact ⟨_, rfl⟩
    · right; left; exact ⟨_, rfl⟩

lemma transcriptionDeltaActions_send_shape (ctx : HandlerCtx) (delta : String)
    (ev : ClientEvent)
    (h : Action.sendClient ev ∈ transcriptionDeltaActions ctx delta) :
    (∃ l1 l2, ev = ClientEvent.sessionUpdate (hookSessionPayload l1 l2)) ∨
    (∃ it, ev = ClientEvent.conversationItemCreate it) := by
  simp only [transcriptionDeltaActions] at h
  split at h
  · simp at h
  · simp only [List.mem_cons] at h
    rcases h with h | h
    · exact absurd h (by simp)
    · split at h
      · split at h
        · simp only [updateSessionWithLanguages, List.mem_cons, List.not_mem_nil, or_false] at h
          rcases h with h | h
          · exact absurd h (by simp)
          · exact .inl ⟨_, _, by injection h⟩
        · split at h
          · simp only [updateSessionWithLanguages, List.mem_cons, List.not_mem_nil,
              or_false] at h
            rcases h with h | h
            · exact absurd h (by simp)
            · exact .inl ⟨_, _, by injection h⟩
          · simp only [updateSessionWithLanguages, List.mem_cons, List.not_mem_nil,
              or_false] at h
            rcases h with h | h
            · exact .inr ⟨_, by injection h⟩
            · exact .inl ⟨_, _, by injection h⟩
      · split at h
        · split at h
          · simp only [updateSessionWithLanguages, List.mem_cons, List.not_mem_nil,
              or_false] at h
            rcases h with h | h
            · exact absurd h (by simp)
            · exact .inl ⟨_, _, by injection h⟩
          · simp at h
        · simp only [List.mem_cons, List.not_mem_nil, or_false] at h
          exact .inr ⟨_, by injection h⟩

lemma handleServerEvent_send_shape (ctx : HandlerCtx) (e : ServerEvent) (ev : ClientEvent)
    (h : Action.sendClient ev ∈ handleServerEvent ctx e) :
    (∃ l1 l2, ev = ClientEvent.sessionUpdate (hookSessionPayload l1 l2)) ∨
    (∃ it, ev = ClientEvent.conversationItemCreate it) ∨ ev = .responseCreate := by
  cases e with
  | sessionStatus s =>
    simp only [handleServerEvent] at h
    split at h <;> simp at h
  | transcriptionDelta delta =>
    simp only [handleServerEvent, List.mem_cons] at h
    rcases h with h | h
    · exact absurd h (by simp)
    · split at h
      · simp at h
      · rcases transcriptionDeltaActions_send_shape ctx delta ev h with h' | h'
        · exact .inl h'
        · exact .inr (.inl h')
  | sessionCreated sid =>
    simp only [handleServerEvent] at h
    split at h
    · simp only [List.mem_cons] at h
      rcases h with h | h
      · exact absurd h (by simp)
      · rcases h with h | h
        · exact absurd h (by simp)
        · split at h
          · simp only [updateSessionWithLanguages, List.mem_cons, List.not_mem_nil,
              or_false] at h
            exact .inl ⟨_, _, by injection h⟩
          · simp at h
    · simp at h
  | itemCreated i r ct cr =>
    simp only [handleServerEvent] at h
    split at h
    · simp at h
    · split at h <;> simp at h
  | transcriptionCompleted i tr =>
    simp only [handleServerEvent] at h
    split at h <;> simp at h
  | audioTranscriptDelta i d =>
    simp only [handleServerEvent] at h
    split at h <;> simp at h
  | responseDone output =>
    simp only [handleServerEvent] at h
    match output with
    | none => simp at h
    | some items =>
      simp only [List.mem_cons] at h
      rcases h with h | h
      · exact absurd h (by simp)
      · rw [List.mem_flatMap] at h
        obtain ⟨o, ho, hin⟩ := h
        split at hin
        · rename_i args harg
          split at hin
          · rw [← sentEventsOf_mem] at hin
            rcases sentEventsOf_handleFunctionCall ctx o.name o.call_id args with
              hc | ⟨out, hc⟩ | ⟨out, hc⟩ <;> rw [hc] at hin
            · simp at hin
            · simp only [List.mem_cons, List.not_mem_nil, or_false] at hin
              rcases hin with hin | hin
              · exact .inr (.inl ⟨_, hin⟩)
              · exact .inr (.inr hin)
            · simp only [List.mem_cons, List.not_mem_nil, or_false] at hin
              exact .inr (.inl ⟨_, hin⟩)
          · simp at hin
        · simp at hin
  | outputItemDone i =>
    simp only [handleServerEvent] at h
    split at h <;> simp at h
  | unknown =>
    simp [handleServerEvent] at h

end RTSel

namespace RTSel

/-- Claim C1, counterexample: while recording is manually active
(`isRecording = true`), processing a transcription delta makes the
dispatcher push a `session.update` whose `turn_detection` is the fixed
`server_vad` profile, not `null` — refuting the claim that every
configuration event sent during recording carries `turn_detection =
null`. -/
theorem claim_C1_counterexample :
    ctxC1.isRecording = true ∧
    (sessionUpdatesOf (handleServerEvent ctxC1 (.transcriptionDelta "hello"))).map
      (fun p => p.turn_detection) = [some serverVadProfile] ∧
    some serverVadProfile ≠ (none : Option TurnDetection) :=
  ⟨rfl, rfl, by simp⟩

/-- Claim C1, amended: every `session.update` configuration event the
server-event dispatcher sends — in any state, recording or not,
including the push issued by the transcription-delta handler — carries
the fixed `server_vad` turn-detection profile, never `null`; only
`App.tsx`'s `updateSession` disables turn detection while recording. -/
theorem claim_C1 (ctx : HandlerCtx) (e : ServerEvent) (p : SessionPayload)
    (hp : p ∈ sessionUpdatesOf (handleServerEvent ctx e)) :
    p.turn_detection = some serverVadProfile := by
  rw [sessionUpdatesOf, clientSessionUpdates_mem, sentEventsOf_mem] at hp
  rcases handleServerEvent_send_shape ctx e _ hp with ⟨l1, l2, hq⟩ | ⟨it, hq⟩ | hq
  · obtain rfl : p = hookSessionPayload l1 l2 := by injection hq
    rfl
  · exact absurd hq (by simp)
  · exact absurd hq (by simp)

/-- Claim C1, witness: the amended theorem applied to the concrete
recording-time push of `ctxC1`. -/
theorem claim_C1_witness :
    (hookSessionPayload "en" "es").turn_detection = some serverVadProfile :=
  claim_C1 ctxC1 (.transcriptionDelta "hello") (hookSessionPayload "en" "es")
    (by rw [show sessionUpdatesOf (handleServerEvent ctxC1 (.transcriptionDelta "hello")) =
          [hookSessionPayload "en" "es"] from rfl]
        exact List.mem_singleton.mpr rfl)

/-- Claim C2: every call of `App.tsx`'s `updateSession` sends exactly one
`session.update`; its payload has `turn_detection = null` when
`isRecording = true`, and the fixed profile `{server_vad, threshold 0.5,
prefix 300ms, silence 200ms, create_response true}` when
`isRecording = false`. -/
theorem claim_C2 (st : AppState) (b : Bool) :
    clientSessionUpdates (updateSession st b) = [updateSessionPayload st] ∧
    (st.isRecording = true → (updateSessionPayload st).turn_detection = none) ∧
    (st.isRecording = false →
      (updateSessionPayload st).turn_detection = some serverVadProfile) := by
  refine ⟨?_, fun h => ?_, fun h => ?_⟩
  · simp only [updateSession]
    split <;> simp
  · simp [updateSessionPayload, turnDetectionFor, h]
  · simp [updateSessionPayload, turnDetectionFor, h]

/-- Claim C2, witness: the theorem applied to concrete recording and
non-recording states. -/
theorem claim_C2_witness :
    (updateSessionPayload stC2on).turn_detection = none ∧
    (updateSessionPayload stC2off).turn_detection = some serverVadProfile :=
  ⟨(claim_C2 stC2on true).2.1 rfl, (claim_C2 stC2off false).2.2 rfl⟩

/-- Claim C3: for a transcription delta processed while recording with a
selected pair (A, B), A ≠ B, both non-empty: if the classifier's top
language is A the session is reconfigured to (A, B) with `secondLanguage
:= B`; if it is B, to (B, A) with `secondLanguage := A`; if it is neither,
a non-blocking assistant notice is sent and the session is reconfigured
with the unchanged pair (A, B), without touching `secondLanguage`. -/
theorem claim_C3 (ctx : HandlerCtx) (delta : String)
    (hrec : ctx.isRecording = true) (hdelta : delta ≠ "")
    (hsrc : ctx.selectedSourceLanguage ≠ "") (htgt : ctx.selectedTargetLanguage ≠ "")
    (hne : ctx.selectedSourceLanguage ≠ ctx.selectedTargetLanguage) :
    (detectTop delta = some ctx.selectedSourceLanguage →
      handleServerEvent ctx (.transcriptionDelta delta) =
        [.logServer (.transcriptionDelta delta),
         .setDetectedLanguage ctx.selectedSourceLanguage,
         .setSecondLanguage ctx.selectedTargetLanguage,
         .sendClient (updateSessionWithLanguages
            ctx.selectedSourceLanguage ctx.selectedTargetLanguage)]) ∧
    (detectTop delta = some ctx.selectedTargetLanguage →
      handleServerEvent ctx (.transcriptionDelta delta) =
        [.logServer (.transcriptionDelta delta),
         .setDetectedLanguage ctx.selectedTargetLanguage,
         .setSecondLanguage ctx.selectedSourceLanguage,
         .sendClient (updateSessionWithLanguages
            ctx.selectedTargetLanguage ctx.selectedSourceLanguage)]) ∧
    (∀ L, detectTop delta = some L →
      L ≠ ctx.selectedSourceLanguage → L ≠ ctx.selectedTargetLanguage →
      handleServerEvent ctx (.transcriptionDelta delta) =
        [.logServer (.transcriptionDelta delta),
         .setDetectedLanguage L,
         .sendClient (.conversationItemCreate (.assistantMessage
            (noticeText L ctx.selectedSourceLanguage ctx.selectedTargetLanguage))),
         .sendClient (updateSessionWithLanguages
            ctx.selectedSourceLanguage ctx.selectedTargetLanguage)]) := by
  have top_shape : ∀ L, detectTop delta = some L →
      ∃ p rest, sortedLanguages delta = p :: rest ∧ Prod.fst p = L := by
    intro L h
    unfold detectTop at h
    cases hs : sortedLanguages delta with
    | nil => rw [hs] at h; simp at h
    | cons p rest =>
      rw [hs] at h
      simp at h
      exact ⟨p, rest, rfl, h⟩
  refine ⟨fun h => ?_, fun h => ?_, fun L h hLs hLt => ?_⟩
  · obtain ⟨p, rest, hs, hL⟩ := top_shape _ h
    simp [handleServerEvent, hrec, hdelta, transcriptionDeltaActions, hs, hL, hsrc, htgt]
  · obtain ⟨p, rest, hs, hL⟩ := top_shape _ h
    simp [handleServerEvent, hrec, hdelta, transcriptionDeltaActions, hs, hL, hsrc, htgt,
      Ne.symm hne]
  · obtain ⟨p, rest, hs, hL⟩ := top_shape _ h
    simp [handleServerEvent, hrec, hdelta, transcriptionDeltaActions, hs, hL, hsrc, htgt,
      hLs, hLt]

/-- Claim C3, witness: the theorem applied with the pair (en, es) to a
delta classified as "en" (first branch) and to a delta classified as
"ru", outside the pair (third branch). -/
theorem claim_C3_witness :
    handleServerEvent ctxC3 (.transcriptionDelta "hi") =
      [.logServer (.transcriptionDelta "hi"),
       .setDetectedLanguage "en", .setSecondLanguage "es",
       .sendClient (updateSessionWithLanguages "en" "es")] ∧
    handleServerEvent ctxC3 (.transcriptionDelta "привет") =
      [.logServer (.transcriptionDelta "привет"),
       .setDetectedLanguage "ru",
       .sendClient (.conversationItemCreate (.assistantMessage
          (noticeText "ru" "en" "es"))),
       .sendClient (updateSessionWithLanguages "en" "es")] :=
  ⟨(claim_C3 ctxC3 "hi" rfl (by decide) (by decide) (by decide) (by decide)).1
      (by decide),
   (claim_C3 ctxC3 "привет" rfl (by decide) (by decide) (by decide) (by decide)).2.2
      "ru" (by decide) (by decide) (by decide)⟩

/-- Claim C4: a `conversation.item.created` event whose item id is
already in the transcript leaves the transcript unchanged; with a new id
and a role, exactly one item is appended, and a user-role item with no
text gets the `[Transcribing...]` placeholder.  The Transcript Store
operations are modelled from the specification (§4.1). -/
theorem claim_C4 (ctx : HandlerCtx) (itemId role contentText contentTranscript : String)
    (hid : itemId ≠ "") :
    ((ctx.transcriptItems.any fun it => it.itemId == itemId) = true →
      applyActions ctx.transcriptItems
        (handleServerEvent ctx (.itemCreated itemId role contentText contentTranscript)) =
        ctx.transcriptItems) ∧
    ((ctx.transcriptItems.any fun it => it.itemId == itemId) = false → role ≠ "" →
      applyActions ctx.transcriptItems
        (handleServerEvent ctx (.itemCreated itemId role contentText contentTranscript)) =
        ctx.transcriptItems ++
          [{ itemId := itemId, role := role,
             title := if role = "user" ∧ strOr contentText contentTranscript = ""
               then "[Transcribing...]" else strOr contentText contentTranscript,
             status := "IN_PROGRESS", hidden := false }]) := by
  constructor
  · intro hdup
    simp [handleServerEvent, hid, hdup, applyActions, applyActionTranscript]
  · intro hnew hrole
    simp [handleServerEvent, hid, hnew, hrole, applyActions, applyActionTranscript,
      addTranscriptMessage]

/-- Claim C4, witness: a re-delivered id "m1" leaves the store unchanged;
a fresh id "m2" with user role and no text appends exactly one
placeholder item. -/
theorem claim_C4_witness :
    applyActions ctxC4.transcriptItems
      (handleServerEvent ctxC4 (.itemCreated "m1" "user" "hi-again" "")) =
      ctxC4.transcriptItems ∧
    applyActions ctxC4new.transcriptItems
      (handleServerEvent ctxC4new (.itemCreated "m2" "user" "" "")) =
      ctxC4new.transcriptItems ++
        [{ itemId := "m2", role := "user",
           title := if ("user" : String) = "user" ∧ strOr "" "" = ""
             then "[Transcribing...]" else strOr "" "",
           status := "IN_PROGRESS", hidden := false }] :=
  ⟨(claim_C4 ctxC4 "m1" "user" "hi-again" "" (by decide)).1 rfl,
   (claim_C4 ctxC4new "m2" "user" "" "" (by decide)).2 rfl (by decide)⟩

/-- Claim C5, counterexample: the dispatcher's `session.created` handler
pushes a `session.update` as its only send, with no
`input_audio_buffer.clear` anywhere in the invocation — refuting the
claim that every `session.update` send is immediately preceded by a
clear command. -/
theorem claim_C5_counterexample :
    (sentEventsOf (handleServerEvent ctxC5 (.sessionCreated "sess_1"))).map eventType =
      ["session.update"] ∧
    "input_audio_buffer.clear" ∉
      (sentEventsOf (handleServerEvent ctxC5 (.sessionCreated "sess_1"))).map eventType := by
  refine ⟨rfl, ?_⟩
  rw [show (sentEventsOf (handleServerEvent ctxC5 (.sessionCreated "sess_1"))).map eventType =
        ["session.update"] from rfl]
  decide

/-- Claim C5, amended: `App.tsx`'s `updateSession` sends its single
`session.update` immediately after an `input_audio_buffer.clear`, but the
configuration pushes issued by the server-event dispatcher (via
`updateSessionWithLanguages`) are not preceded by a clear — the
dispatcher never sends `input_audio_buffer.clear` at all. -/
theorem claim_C5 :
    (∀ (st : AppState) (b : Bool) (i : Nat) (p : SessionPayload),
      (updateSession st b)[i]? = some (.sessionUpdate p) →
      i = 1 ∧ (updateSession st b)[i - 1]? = some .inputAudioBufferClear) ∧
    (∀ (ctx : HandlerCtx) (e : ServerEvent),
      ClientEvent.inputAudioBufferClear ∉ sentEventsOf (handleServerEvent ctx e)) := by
  constructor
  · intro st b i p h
    match i with
    | 0 => simp [updateSession] at h
    | 1 => exact ⟨rfl, rfl⟩
    | (n + 2) =>
      exfalso
      simp only [updateSession] at h
      rw [List.getElem?_cons_succ, List.getElem?_cons_succ] at h
      split at h
      · match n with
        | 0 => simp at h
        | (m + 1) => simp at h
      · simp at h
  · intro ctx e hmem
    rw [sentEventsOf_mem] at hmem
    rcases handleServerEvent_send_shape ctx e _ hmem with ⟨l1, l2, hq⟩ | ⟨it, hq⟩ | hq <;>
      simp at hq

/-- Claim C5, witness: the theorem applied to a concrete `updateSession`
call and a concrete dispatcher invocation. -/
theorem claim_C5_witness :
    ((1 : Nat) = 1 ∧
      (updateSession stC5 false)[1 - 1]? = some ClientEvent.inputAudioBufferClear) ∧
    ClientEvent.inputAudioBufferClear ∉
      sentEventsOf (handleServerEvent ctxC5 (.sessionCreated "sess_1")) :=
  ⟨claim_C5.1 stC5 false 1 (updateSessionPayload stC5) rfl,
   claim_C5.2 ctxC5 (.sessionCreated "sess_1")⟩

/-- Claim C6, counterexample: a transcript consisting of a single space —
non-empty, whitespace-only — is not normalized to `[inaudible]`; it is
written back verbatim, refuting the claim that all whitespace-only
transcripts are normalized. -/
theorem claim_C6_counterexample :
    handleServerEvent ctxC6 (.transcriptionCompleted "item_1" " ") =
      [.logServer (.transcriptionCompleted "item_1" " "),
       .updateMessage "item_1" " " false] ∧
    (" " : String).data.all Char.isWhitespace = true ∧ (" " : String) ≠ "" ∧
    (" " : String) ≠ "[inaudible]" :=
  ⟨rfl, by decide, by decide, by decide⟩

/-- Claim C6, amended: for every transcription-completed event carrying
an item id, the message text is replaced (non-delta) with `[inaudible]`
exactly when the transcript is empty (or absent) or is the single newline
string `"\n"`; any other transcript — including other whitespace-only
strings — replaces the text verbatim. -/
theorem claim_C6 (ctx : HandlerCtx) (itemId transcript : String)
    (hid : itemId ≠ "") :
    handleServerEvent ctx (.transcriptionCompleted itemId transcript) =
      [.logServer (.transcriptionCompleted itemId transcript),
       .updateMessage itemId
         (if transcript = "" ∨ transcript = "\n" then "[inaudible]" else transcript)
         false] ∧
    ∀ store : List TranscriptItem,
      applyActions store (handleServerEvent ctx (.transcriptionCompleted itemId transcript)) =
        updateTranscriptMessage store itemId
          (if transcript = "" ∨ transcript = "\n" then "[inaudible]" else transcript)
          false := by
  constructor
  · simp [handleServerEvent, hid]
  · intro store
    simp [handleServerEvent, hid, applyActions, applyActionTranscript]

/-- Claim C6, witness: the amended theorem applied to a concrete
non-empty transcript. -/
theorem claim_C6_witness :
    handleServerEvent ctxC6 (.transcriptionCompleted "m1" "hola") =
      [.logServer (.transcriptionCompleted "m1" "hola"),
       .updateMessage "m1"
         (if ("hola" : String) = "" ∨ ("hola" : String) = "\n"
           then "[inaudible]" else "hola")
         false] :=
  (claim_C6 ctxC6 "m1" "hola" (by decide)).1

/-- Claim C7, code bug: dispatching a function call whose custom tool
logic throws produces no `function_call_output` event at all — the
dispatcher's whole invocation emits only the event-log entry — whereas
the specification requires exactly one output event carrying the call id
even on tool failure. -/
theorem claim_C7 :
    handleServerEvent ctxC7 evC7 = [.logServer evC7] ∧
    countFunctionCallOutputs (handleServerEvent ctxC7 evC7) "call-1" = 0 := by
  constructor <;> rfl

/-- Claim C8: on a `session.created` event carrying a session id, the
dispatcher sets the status to CONNECTED, and when a source and target
language are both already selected it immediately pushes a configuration
whose instructions are the translator template applied to exactly that
selected pair, without waiting for any detection event. -/
theorem claim_C8 (ctx : HandlerCtx) (sid : String) (hsid : sid ≠ "") :
    Action.setSessionStatus "CONNECTED" ∈ handleServerEvent ctx (.sessionCreated sid) ∧
    (ctx.selectedSourceLanguage ≠ "" → ctx.selectedTargetLanguage ≠ "" →
      handleServerEvent ctx (.sessionCreated sid) =
        [.logServer (.sessionCreated sid), .setSessionStatus "CONNECTED",
         .sendClient (.sessionUpdate (hookSessionPayload
            ctx.selectedSourceLanguage ctx.selectedTargetLanguage))] ∧
      (hookSessionPayload ctx.selectedSourceLanguage ctx.selectedTargetLanguage).instructions =
        hookInstructions ctx.selectedSourceLanguage ctx.selectedTargetLanguage) := by
  constructor
  · simp [handleServerEvent, hsid]
  · intro h1 h2
    refine ⟨?_, rfl⟩
    simp [handleServerEvent, hsid, h1, h2, updateSessionWithLanguages]

/-- Claim C8, witness: the theorem applied to a concrete handshake with
the pair (en, es) selected beforehand. -/
theorem claim_C8_witness :
    Action.setSessionStatus "CONNECTED" ∈ handleServerEvent ctxC8 (.sessionCreated "sess_1") ∧
    handleServerEvent ctxC8 (.sessionCreated "sess_1") =
      [.logServer (.sessionCreated "sess_1"), .setSessionStatus "CONNECTED",
       .sendClient (.sessionUpdate (hookSessionPayload "en" "es"))] :=
  ⟨(claim_C8 ctxC8 "sess_1" (by decide)).1,
   ((claim_C8 ctxC8 "sess_1" (by decide)).2 (by decide) (by decide)).1⟩

/-- Claim C9: if the data channel exists and its ready state is open,
`sendClientEvent` logs the event to the Event Log and transmits its
serialization; otherwise it logs a client-side channel-not-open
diagnostic and transmits nothing — the event is dropped, not queued. -/
theorem claim_C9 (dc : Option String) (e : ClientEvent) (suffix : String) :
    (dc = some "open" →
      sendClientEvent dc e suffix =
        [.logged "client" (logName (eventType e) suffix), .transmitted e]) ∧
    (dc ≠ some "open" →
      sendClientEvent dc e suffix =
        [.logged "client" (logName "" "error.data_channel_not_open")] ∧
      ∀ ev : ClientEvent, ChannelAction.transmitted ev ∉ sendClientEvent dc e suffix) := by
  constructor
  · intro h; simp [sendClientEvent, h]
  · intro h
    refine ⟨by simp [sendClientEvent, h], fun ev => by simp [sendClientEvent, h]⟩

/-- Claim C9, witness: the theorem applied to an open channel and to an
absent channel. -/
theorem claim_C9_witness :
    sendClientEvent (some "open") .responseCreate "" =
      [.logged "client" (logName (eventType .responseCreate) ""),
       .transmitted .responseCreate] ∧
    (sendClientEvent none .responseCreate "" =
      [.logged "client" (logName "" "error.data_channel_not_open")] ∧
     ∀ ev : ClientEvent,
       ChannelAction.transmitted ev ∉ sendClientEvent none .responseCreate "") :=
  ⟨(claim_C9 (some "open") .responseCreate "").1 rfl,
   (claim_C9 none .responseCreate "").2 (by simp)⟩

/-- Claim C10: a fragment containing at least one basic Latin letter and
no character of any other language's pattern class is always classified
with "en" ranked first — so Spanish, French or German text containing no
accented characters is detected as English. -/
theorem claim_C10 (t : String)
    (hen : ∃ c ∈ t.data, isEnChar c = true)
    (hothers : ∀ c ∈ t.data,
      isZhChar c = false ∧ isJaChar c = false ∧ isKoChar c = false ∧
      isRuChar c = false ∧ isArChar c = false ∧ isHiChar c = false ∧
      isEsChar c = false ∧ isFrChar c = false ∧ isDeChar c = false) :
    detectTop t = some "en" := by
  have hpos : 0 < t.data.countP isEnChar := by
    rw [List.countP_pos_iff]
    obtain ⟨c, hc, h⟩ := hen
    exact ⟨c, hc, h⟩
  have hz : ∀ f : Char → Bool, (∀ c ∈ t.data, f c = false) → t.data.countP f = 0 := by
    intro f hf
    rw [List.countP_eq_zero]
    intro c hc
    simp [hf c hc]
  have h1 := hz isZhChar fun c hc => (hothers c hc).1
  have h2 := hz isJaChar fun c hc => (hothers c hc).2.1
  have h3 := hz isKoChar fun c hc => (hothers c hc).2.2.1
  have h4 := hz isRuChar fun c hc => (hothers c hc).2.2.2.1
  have h5 := hz isArChar fun c hc => (hothers c hc).2.2.2.2.1
  have h6 := hz isHiChar fun c hc => (hothers c hc).2.2.2.2.2.1
  have h7 := hz isEsChar fun c hc => (hothers c hc).2.2.2.2.2.2.1
  have h8 := hz isFrChar fun c hc => (hothers c hc).2.2.2.2.2.2.2.1
  have h9 := hz isDeChar fun c hc => (hothers c hc).2.2.2.2.2.2.2.2
  unfold detectTop sortedLanguages languageScores languagePatterns
  simp only [List.map_cons, List.map_nil, h1, h2, h3, h4, h5, h6, h7, h8, h9]
  simp [sortByScoreDesc, insertByScore, hpos, List.filter]

/-- Claim C10, witness: unaccented Spanish text is classified as
English. -/
theorem claim_C10_witness :
    detectTop "Como estas amigo" = some "en" :=
  claim_C10 "Como estas amigo" (by decide) (by decide)

end RTSel
